import Mathlib

/-!
Verification development for the ROSI chassis-leveling controller
(`rosi_leveler/script/chassis_control.py`).

The controller state and the control-law evaluation of `NodeClass` are
shallowly embedded over the real numbers.  Helper functions that live in
the sibling packages `rosi_common` / `rosi_model` (not part of the
analysed sources) are modelled from the specification; each such
definition carries a doc comment starting with `Modelled from the spec:`.
-/

namespace Rosi

open Real Matrix

/-- A 3D vector, mirroring a ROS `Vector3` / a numpy length-3 array. -/
@[ext]
structure Vec3 where
  x : ℝ
  y : ℝ
  z : ℝ

/-- A quaternion in the `numpy.quaternion` component order `(w, x, y, z)`. -/
@[ext]
structure Quat where
  w : ℝ
  x : ℝ
  y : ℝ
  z : ℝ

/-- Hamilton product, the multiplication used by `numpy.quaternion`. -/
def Quat.mul (a b : Quat) : Quat :=
  ⟨a.w * b.w - a.x * b.x - a.y * b.y - a.z * b.z,
   a.w * b.x + a.x * b.w + a.y * b.z - a.z * b.y,
   a.w * b.y - a.x * b.z + a.y * b.w + a.z * b.x,
   a.w * b.z + a.x * b.y - a.y * b.x + a.z * b.w⟩

instance : Mul Quat := ⟨Quat.mul⟩

/-- Quaternion conjugate, mirroring `np.quaternion.conj()`. -/
def Quat.conj (q : Quat) : Quat := ⟨q.w, -q.x, -q.y, -q.z⟩

/-- Componentwise sum of two quaternions. -/
def Quat.add (a b : Quat) : Quat := ⟨a.w + b.w, a.x + b.x, a.y + b.y, a.z + b.z⟩

instance : Add Quat := ⟨Quat.add⟩

/-- Scaling of a quaternion by a real number. -/
def Quat.smul (r : ℝ) (q : Quat) : Quat := ⟨r * q.w, r * q.x, r * q.y, r * q.z⟩

/-- The identity quaternion `(1, 0, 0, 0)`. -/
def Quat.one : Quat := ⟨1, 0, 0, 0⟩

instance : One Quat := ⟨Quat.one⟩

/-- The zero quaternion. -/
def Quat.zero : Quat := ⟨0, 0, 0, 0⟩

instance : Zero Quat := ⟨Quat.zero⟩

/-- Component array of a quaternion, mirroring `np.quaternion.components`
(`[w, x, y, z]`). -/
def Quat.components (q : Quat) : Fin 4 → ℝ := ![q.w, q.x, q.y, q.z]

/-- A 3D vector promoted to a pure (zero-scalar) quaternion. -/
def Vec3.toPureQuat (v : Vec3) : Quat := ⟨0, v.x, v.y, v.z⟩

/-- Vector (imaginary) part of a quaternion as a 3D vector. -/
def Quat.vecPart (q : Quat) : Vec3 := ⟨q.x, q.y, q.z⟩

/-- A dual quaternion in the `dqrobotics.DQ` layout: a primary quaternion
`p` and a dual quaternion part `d`, i.e. the 8-vector
`(p.w, p.x, p.y, p.z, d.w, d.x, d.y, d.z)`. -/
@[ext]
structure DQc where
  p : Quat
  d : Quat

/-- Dual-quaternion multiplication `(p₁ + ε d₁)(p₂ + ε d₂) =
p₁p₂ + ε (p₁d₂ + d₁p₂)`, mirroring `dqrobotics.DQ.__mul__`. -/
def DQc.mul (a b : DQc) : DQc := ⟨a.p * b.p, a.p * b.d + a.d * b.p⟩

instance : Mul DQc := ⟨DQc.mul⟩

/-- Dual-quaternion conjugate, conjugating both quaternion parts,
mirroring `dqrobotics.DQ.conj()`. -/
def DQc.conj (a : DQc) : DQc := ⟨a.p.conj, a.d.conj⟩

/-- The identity dual quaternion `(1,0,0,0,0,0,0,0)`. -/
def DQc.one : DQc := ⟨1, 0⟩

instance : One DQc := ⟨DQc.one⟩

/-- Component 8-vector of a dual quaternion, mirroring `DQ.vec8()`. -/
def DQc.vec8 (a : DQc) : Fin 8 → ℝ :=
  ![a.p.w, a.p.x, a.p.y, a.p.z, a.d.w, a.d.x, a.d.y, a.d.z]

/-! ### Functions modelled from `rosi_common.dq_tools` (not in the analysed sources) -/

/-- Modelled from the spec: degree-to-radian conversion (`np.deg2rad`). -/
noncomputable def deg2rad (x : ℝ) : ℝ := x * π / 180

/-- Modelled from the spec: the two-argument arctangent `np.arctan2 y x`,
realised as the complex argument of `x + y i`; it returns the angle in
`(-π, π]` (with `atan2 0 0 = 0`, as numpy). -/
noncomputable def atan2 (y x : ℝ) : ℝ := Complex.arg ⟨x, y⟩

/-- Modelled from the spec: `rosi_common.dq_tools.quat2rpy`, decomposing a
unit quaternion into roll-pitch-yaw angles with the standard aerospace
(ZYX, i.e. fixed-axis XYZ) convention, the convention in which
`q = q_z(yaw) * q_y(pitch) * q_x(roll)`. -/
noncomputable def quat2rpy (q : Quat) : ℝ × ℝ × ℝ :=
  (atan2 (2 * (q.w * q.x + q.y * q.z)) (1 - 2 * (q.x ^ 2 + q.y ^ 2)),
   arcsin (2 * (q.w * q.y - q.z * q.x)),
   atan2 (2 * (q.w * q.z + q.x * q.y)) (1 - 2 * (q.y ^ 2 + q.z ^ 2)))

/-- Modelled from the spec: `rosi_common.dq_tools.rpy2quat`, composing
roll-pitch-yaw angles into the quaternion `q_z(yaw) * q_y(pitch) * q_x(roll)`
(the inverse of `quat2rpy` away from gimbal lock), via the standard
half-angle product formulas. -/
noncomputable def rpy2quat (rpy : ℝ × ℝ × ℝ) : Quat :=
  let r := rpy.1
  let p := rpy.2.1
  let y := rpy.2.2
  ⟨cos (r / 2) * cos (p / 2) * cos (y / 2) + sin (r / 2) * sin (p / 2) * sin (y / 2),
   sin (r / 2) * cos (p / 2) * cos (y / 2) - cos (r / 2) * sin (p / 2) * sin (y / 2),
   cos (r / 2) * sin (p / 2) * cos (y / 2) + sin (r / 2) * cos (p / 2) * sin (y / 2),
   cos (r / 2) * cos (p / 2) * sin (y / 2) - sin (r / 2) * sin (p / 2) * cos (y / 2)⟩

/-- Modelled from the spec: `rosi_common.dq_tools.trAndOri2dq` restricted to
the `'trfirst'` (translate-then-rotate) convention used throughout the node:
the pose dual quaternion is `q + ε (1/2) q t` for rotation `q` and pure
translation quaternion `t`. -/
noncomputable def trAndOri2dq (tr : Vec3) (q : Quat) : DQc :=
  ⟨q, Quat.smul (1 / 2) (q * tr.toPureQuat)⟩

/-- Modelled from the spec: `rosi_common.dq_tools.dqExtractTransV3`,
recovering the translation vector of a `'trfirst'` pose dual quaternion
as the vector part of `2 conj(p) d`. -/
def dqExtractTransV3 (a : DQc) : Vec3 :=
  (Quat.smul 2 (a.p.conj * a.d)).vecPart

/-- Modelled from the spec: `rosi_common.dq_tools.dq2trAndQuatArray`,
splitting a pose dual quaternion into its translation vector and its
rotation quaternion. -/
def dq2trAndQuatArray (a : DQc) : Vec3 × Quat := (dqExtractTransV3 a, a.p)

/-- Modelled from the spec: `rosi_common.dq_tools.dq2rpy`, the roll-pitch-yaw
decomposition of the rotation part of a pose dual quaternion. -/
noncomputable def dq2rpy (a : DQc) : ℝ × ℝ × ℝ := quat2rpy a.p

/-- Modelled from the spec: `rosi_common.dq_tools.dqElementwiseMul`, the
componentwise product of two dual quaternions (on the 8 scalar components). -/
def dqElementwiseMul (a b : DQc) : DQc :=
  ⟨⟨a.p.w * b.p.w, a.p.x * b.p.x, a.p.y * b.p.y, a.p.z * b.p.z⟩,
   ⟨a.d.w * b.d.w, a.d.x * b.d.x, a.d.y * b.d.y, a.d.z * b.d.z⟩⟩

/-! ### Functions modelled from `rosi_common.rosi_tools` and `rosi_model` -/

/-- Modelled from the spec: the fixed per-flipper sign-correction convention
applied to the raw flipper joint angles (left-side units mirrored). -/
def flipperJointSigns : List ℝ := [1, -1, -1, 1]

/-- Modelled from the spec: `rosi_common.rosi_tools.correctFlippersJointSignal`,
multiplying each of the 4 flipper joint angles by its documented sign. -/
def correctFlippersJointSignal (l : List ℝ) : List ℝ :=
  List.zipWith (fun s v => s * v) flipperJointSigns l

/-- Modelled from the spec: `rosi_common.rosi_tools.compute_J_ori_dagger`,
the 4×2 orientation Jacobian mapping a (roll, pitch) error to the 4
per-unit vertical velocities: a unit mounted at offset `(x, y, z)` sees
vertical velocity `y·ω_roll − x·ω_pitch`. -/
def compute_J_ori_dagger (pts : Fin 4 → Vec3) : Matrix (Fin 4) (Fin 2) ℝ :=
  fun i j => if j = 0 then (pts i).y else -(pts i).x

/-- Modelled from the spec: `rosi_common.rosi_tools.compute_J_art_dagger`,
the 4×3 articulation Jacobian mapping a (height, roll, pitch) error to the
4 per-unit vertical velocities. -/
def compute_J_art_dagger (pts : Fin 4 → Vec3) : Matrix (Fin 4) (Fin 3) ℝ :=
  fun i j => if j = 0 then 1 else if j = 1 then (pts i).y else -(pts i).x

/-- Modelled from the spec: `rosi_model.rosi_description.tr_base_piFlp`, the
static 3D mounting offsets of the 4 propulsion units relative to the chassis
frame (front-left, front-right, rear-left, rear-right). -/
noncomputable def tr_base_piFlp : Fin 4 → Vec3 :=
  ![⟨3 / 10, 1 / 5, 0⟩, ⟨3 / 10, -(1 / 5), 0⟩, ⟨-(3 / 10), 1 / 5, 0⟩, ⟨-(3 / 10), -(1 / 5), 0⟩]

/-! ### One-time calculations of `NodeClass.__init__` -/

/-- Orientation Jacobian of the node, as computed at line 97 of the source. -/
noncomputable def J_ori_dagger : Matrix (Fin 4) (Fin 2) ℝ := compute_J_ori_dagger tr_base_piFlp

/-- Modelled from the spec: the value of `np.linalg.pinv(J_ori_dagger)`
(line 100 of the source), the Moore-Penrose pseudo-inverse of the
orientation Jacobian at the modelled mounting geometry.  The theorem
`J_ori_penrose` below verifies the four Penrose equations, which
characterise the pseudo-inverse uniquely. -/
noncomputable def J_ori : Matrix (Fin 2) (Fin 4) ℝ :=
  ![![5 / 4, -(5 / 4), 5 / 4, -(5 / 4)], ![-(5 / 6), -(5 / 6), 5 / 6, 5 / 6]]

/-- Null-space projector of the orientation Jacobian,
`I − J_ori_dagger · J_ori` (line 103 of the source). -/
noncomputable def J_ori_nsproj : Matrix (Fin 4) (Fin 4) ℝ := 1 - J_ori_dagger * J_ori

/-- Articulation Jacobian of the node (line 106 of the source). -/
noncomputable def J_art_dagger : Matrix (Fin 4) (Fin 3) ℝ := compute_J_art_dagger tr_base_piFlp

/-- Static angular set-point of the 4 flipper joints for the null-space
objective, `4 * [deg2rad(110)]` (line 49 of the source). -/
noncomputable def flpJointPosSp_l : List ℝ := List.replicate 4 (deg2rad 110)

/-- Static gains of the null-space (mu) objective, `4 * [0.3]`
(line 52 of the source). -/
noncomputable def kmu_l : List ℝ := List.replicate 4 (3 / 10)

/-- The static method `NodeClass.convertSetPoints2DqFormat` (lines 362-381):
converts a translation and an RPY orientation set-point into the
orientation-quaternion and pose-dual-quaternion representations. -/
noncomputable def convertSetPoints2DqFormat (tr : Vec3) (rpy : ℝ × ℝ × ℝ) : Quat × DQc :=
  let ori_q := rpy2quat rpy
  (ori_q, trAndOri2dq tr ori_q)

/-! ### Node state -/

/-- The mutable state of `NodeClass`, as read and written by the eternal
loop, the topic callbacks and the service callbacks.  `e_dq_last` models
the Python local variable `e_a_R_dq` of `nodeMain`, which persists across
loop iterations and is read by the pose-error publication (line 250) in
the invalid-mode branch before having been assigned in that iteration;
`none` models the unbound state. -/
structure NodeState where
  x_sp_ori_q : Quat
  x_sp_dq : DQc
  kp_o_q : Quat
  kp_a_dq : DQc
  ctrlType_curr : ℤ
  msg_grndDist : Option Vec3
  msg_jointState : Option (List ℝ)
  msg_imu : Option Quat
  active : Bool
  drive_side : ℤ
  e_dq_last : Option DQc

/-- The state produced by `NodeClass.__init__`: set-point translation
`[0, 0, 0.3]` with zero RPY, orientation gains `[2, 4, 1]`, translation
gains `[1, 1, 0.8]`, control type `orientation = 1`, no sensor message
received yet, node active by default (the `resetActive` call is commented
out in the source). -/
noncomputable def initState : NodeState :=
  let sp := convertSetPoints2DqFormat ⟨0, 0, 3 / 10⟩ (deg2rad 0, deg2rad 0, deg2rad 0)
  { x_sp_ori_q := sp.1
    x_sp_dq := sp.2
    kp_o_q := ⟨1, 2, 4, 1⟩
    kp_a_dq := ⟨⟨1, 2, 4, 1⟩, ⟨1, 1, 1, 4 / 5⟩⟩
    ctrlType_curr := 1
    msg_grndDist := none
    msg_jointState := none
    msg_imu := none
    active := true
    drive_side := 0
    e_dq_last := none }

/-! ### Service callbacks -/

/-- The service callback `NodeClass.srvcllbck_setCtrlType` (lines 327-343):
accepts an integer in `{1, …, len(chassisCtrlType)} = {1, 2, 3}`, replacing
the current control type and echoing it; otherwise leaves the state
unchanged and answers the sentinel `-1`. -/
def srvcllbck_setCtrlType (s : NodeState) (v : ℤ) : NodeState × ℤ :=
  if 1 ≤ v ∧ v ≤ 3 then ({ s with ctrlType_curr := v }, v) else (s, -1)

/-- The service callback `NodeClass.srvcllbck_getCtrlType` (lines 346-350). -/
def srvcllbck_getCtrlType (s : NodeState) : ℤ := s.ctrlType_curr

/-- The service callback `NodeClass.srvcllbck_setPoseSetPoint` (lines 294-299):
replaces both set-point representations via `convertSetPoints2DqFormat`. -/
noncomputable def srvcllbck_setPoseSetPoint (s : NodeState) (tr : Vec3) (rpy : ℝ × ℝ × ℝ) :
    NodeState × Bool :=
  let sp := convertSetPoints2DqFormat tr rpy
  ({ s with x_sp_ori_q := sp.1, x_sp_dq := sp.2 }, true)

/-- The service callback `NodeClass.srvcllbck_getPoseSetPoint` (lines 314-318):
returns the translation extracted from the stored pose dual quaternion and
the RPY decomposition of its rotation. -/
noncomputable def srvcllbck_getPoseSetPoint (s : NodeState) : Vec3 × (ℝ × ℝ × ℝ) :=
  (dqExtractTransV3 s.x_sp_dq, dq2rpy s.x_sp_dq)

/-- The service callback `NodeClass.srvcllbck_setPoseCtrlGain` (lines 302-311):
replaces the orientation-gain quaternion (scalar part 1) and the pose-gain
dual quaternion (both scalar parts 1). -/
def srvcllbck_setPoseCtrlGain (s : NodeState) (kp_ori kp_tr : Fin 3 → ℝ) : NodeState × Bool :=
  ({ s with
      kp_o_q := ⟨1, kp_ori 0, kp_ori 1, kp_ori 2⟩
      kp_a_dq := ⟨⟨1, kp_ori 0, kp_ori 1, kp_ori 2⟩, ⟨1, kp_tr 0, kp_tr 1, kp_tr 2⟩⟩ }, true)

/-! ### The control tick -/

/-- De-yawing of the raw IMU orientation, mirroring lines 160-163 of
`nodeMain`: decompose into RPY, rebuild a yaw-only quaternion, and
right-multiply the raw orientation by it. -/
noncomputable def deYaw (q : Quat) : Quat := q * rpy2quat (0, 0, (quat2rpy q).2.2)

/-- One published batch of a control tick: the 4-unit vertical-velocity
command (the `z` entries of the `Vector3ArrayStamped`), the current pose,
the set-point pose, the pose error and the gain diagnostics.  `errPub = none`
models the unbound-local failure of the pose-error publication (line 250)
in the invalid-mode branch when no previous iteration assigned `e_a_R_dq`;
in that case the gain publication (line 255) is never reached either. -/
structure TickPub where
  cmd : Fin 4 → ℝ
  poseCurr : DQc
  poseSp : DQc
  errPub : Option DQc
  gainPub : DQc

/-- One iteration of the eternal loop of `NodeClass.nodeMain`
(lines 147-258), given the current value of the `/rosi/forward_side`
parameter: if the node is inactive or any of the three sensor snapshots is
unset, nothing is computed or published; otherwise the de-yawed orientation
and articulation pose are refreshed, the command of the current control
mode is evaluated, the drive-side parameter is re-read into the state,
and the command plus the four diagnostics are published. -/
noncomputable def tick (s : NodeState) (driveParam : ℤ) : NodeState × Option TickPub :=
  if s.active then
    match s.msg_grndDist, s.msg_jointState, s.msg_imu with
    | some gd, some js, some q_imu =>
      let x_o_R_q := deYaw q_imu
      let x_a_R_dq := trAndOri2dq ⟨0, 0, gd.z⟩ x_o_R_q
      let branch : (Fin 4 → ℝ) × Option DQc :=
        if s.ctrlType_curr = 1 ∨ s.ctrlType_curr = 2 then
          let e_o_R_q := s.x_sp_ori_q.conj * x_o_R_q
          let u_o_R_q : Fin 4 → ℝ := fun i => s.kp_o_q.conj.components i * e_o_R_q.components i
          let u_o_R_v : Fin 2 → ℝ := ![u_o_R_q 1, u_o_R_q 2]
          let u_base := J_ori_dagger.mulVec u_o_R_v
          let u_Pi_v :=
            if s.ctrlType_curr = 2 then
              let flpJPos_l := correctFlippersJointSignal (js.drop 4)
              let mu : Fin 4 → ℝ := fun i =>
                kmu_l.getD i 0 * (flpJointPosSp_l.getD i 0 - flpJPos_l.getD i 0)
              u_base + J_ori_nsproj.mulVec mu
            else u_base
          (u_Pi_v, some ⟨e_o_R_q, 0⟩)
        else if s.ctrlType_curr = 3 then
          let e_a_R_dq := s.x_sp_dq.conj * x_a_R_dq
          let u_a_R_dq := dqElementwiseMul s.kp_a_dq.conj e_a_R_dq
          let u_split := dq2trAndQuatArray u_a_R_dq
          let u_a_R : Fin 3 → ℝ := ![u_split.1.z, u_split.2.x, u_split.2.y]
          (J_art_dagger.mulVec u_a_R, some e_a_R_dq)
        else
          (0, s.e_dq_last)
      ({ s with drive_side := driveParam, e_dq_last := branch.2 },
       some { cmd := branch.1
              poseCurr := x_a_R_dq
              poseSp := s.x_sp_dq
              errPub := branch.2
              gainPub := s.kp_a_dq })
    | _, _, _ => (s, none)
  else (s, none)

/-! ### Events and runs -/

/-- An asynchronous event hitting the node: one of the three sensor topic
callbacks, one of the mutating service callbacks, the activation service,
or a loop tick (carrying the current drive-side parameter value). -/
inductive Event where
  | imu (q : Quat)
  | grndDist (v : Vec3)
  | jointState (l : List ℝ)
  | setActive (b : Bool)
  | setPose (tr : Vec3) (rpy : ℝ × ℝ × ℝ)
  | setGain (kp_ori kp_tr : Fin 3 → ℝ)
  | setCtrlType (v : ℤ)
  | tick (driveParam : ℤ)

/-- One step of the node: dispatches an event to the corresponding callback
(or loop iteration) and returns the successor state together with the
published batch, if any. -/
noncomputable def step (s : NodeState) : Event → NodeState × Option TickPub
  | .imu q => ({ s with msg_imu := some q }, none)
  | .grndDist v => ({ s with msg_grndDist := some v }, none)
  | .jointState l => ({ s with msg_jointState := some l }, none)
  | .setActive b => ({ s with active := b }, none)
  | .setPose tr rpy => ((srvcllbck_setPoseSetPoint s tr rpy).1, none)
  | .setGain a b => ((srvcllbck_setPoseCtrlGain s a b).1, none)
  | .setCtrlType v => ((srvcllbck_setCtrlType s v).1, none)
  | .tick d => tick s d

/-- The trace of published batches along a run of the node. -/
noncomputable def run (s : NodeState) : List Event → List (Option TickPub)
  | [] => []
  | e :: es => (step s e).2 :: run (step s e).1 es

/-- The state reached after dispatching a sequence of events. -/
noncomputable def runState (s : NodeState) (evs : List Event) : NodeState :=
  evs.foldl (fun s e => (step s e).1) s

/-- The state `s` with all three sensor snapshots populated by the given
measurements (as after one callback of each topic). -/
def withSensors (s : NodeState) (gd : Vec3) (js : List ℝ) (q : Quat) : NodeState :=
  { s with msg_grndDist := some gd, msg_jointState := some js, msg_imu := some q }

/-- All three sensor snapshots have been populated at least once. -/
def sensorsSet (s : NodeState) : Prop :=
  s.msg_grndDist.isSome ∧ s.msg_jointState.isSome ∧ s.msg_imu.isSome

/-- The state with the drive-side field blanked; two states with the same
erasure differ at most in the heading-polarity configuration value. -/
def eraseDrive (s : NodeState) : NodeState := { s with drive_side := 0 }

/-- An event with any drive-side parameter payload blanked; two events with
the same normalisation differ at most in the heading-polarity value a tick
would read. -/
def normEv : Event → Event
  | .tick _ => .tick 0
  | e => e

/-! ### The orientation control law as the specification words it -/

/-- The orientation-mode error quaternion as worded by the spec: the
conjugate of the set-point orientation multiplied by the current de-yawed
orientation. -/
def specOriError (sp x : Quat) : Quat := sp.conj * x

/-- The orientation-mode control signal as worded by the spec: the
elementwise product of the conjugated gain quaternion's components with
the error quaternion's components, restricted to the roll and pitch
(`x` and `y`) vector components. -/
def specOriCtrl (kp e : Quat) : Fin 2 → ℝ := ![kp.conj.x * e.x, kp.conj.y * e.y]

/-! ## Basic algebra lemmas -/

theorem quat_mul_def (a b : Quat) : a * b = Quat.mul a b := rfl

theorem dq_mul_def (a b : DQc) : a * b = DQc.mul a b := rfl

theorem quat_add_def (a b : Quat) : a + b = Quat.add a b := rfl

theorem quat_one_def : (1 : Quat) = ⟨1, 0, 0, 0⟩ := rfl

theorem quat_zero_def : (0 : Quat) = ⟨0, 0, 0, 0⟩ := rfl

theorem dq_one_def : (1 : DQc) = ⟨⟨1, 0, 0, 0⟩, ⟨0, 0, 0, 0⟩⟩ := rfl

/-! ## Claim C2: mode-set requests are validated -/

/-- C2: for every set-control-mode request, a requested value in `{1,2,3}`
replaces the active mode and is echoed in the response, while any other
value leaves the active mode unchanged and yields the sentinel `-1`. -/
theorem setCtrlType_valid_or_sentinel (s : NodeState) (v : ℤ) :
    ((v = 1 ∨ v = 2 ∨ v = 3) →
      srvcllbck_setCtrlType s v = ({ s with ctrlType_curr := v }, v)) ∧
    (¬(v = 1 ∨ v = 2 ∨ v = 3) →
      srvcllbck_setCtrlType s v = (s, -1)) := by
  constructor
  · rintro (rfl | rfl | rfl) <;> simp [srvcllbck_setCtrlType]
  · intro h
    have hv : ¬(1 ≤ v ∧ v ≤ 3) := by omega
    simp [srvcllbck_setCtrlType, hv]

/-- Witness for C2: at the initial state, requesting mode `2` replaces the
mode and echoes `2`, while the out-of-range requests `0` and `4` leave the
state unchanged and answer `-1`. -/
theorem setCtrlType_valid_or_sentinel_witness :
    srvcllbck_setCtrlType initState 2 = ({ initState with ctrlType_curr := 2 }, 2) ∧
    srvcllbck_setCtrlType initState 0 = (initState, -1) ∧
    srvcllbck_setCtrlType initState 4 = (initState, -1) :=
  ⟨(setCtrlType_valid_or_sentinel initState 2).1 (by norm_num),
   (setCtrlType_valid_or_sentinel initState 0).2 (by norm_num),
   (setCtrlType_valid_or_sentinel initState 4).2 (by norm_num)⟩

/-! ## Structural lemmas about the loop tick -/

theorem tick_not_ready (s : NodeState) (d : ℤ)
    (h : s.msg_grndDist = none ∨ s.msg_jointState = none ∨ s.msg_imu = none) :
    (tick s d).2 = none := by
  unfold tick
  rcases hg : s.msg_grndDist with _ | gd <;> rcases hj : s.msg_jointState with _ | js <;>
    rcases hi : s.msg_imu with _ | q <;> rcases ha : s.active <;>
      simp_all

theorem tick_ready_pub (s : NodeState) (d : ℤ) (gd : Vec3) (js : List ℝ) (q : Quat)
    (ha : s.active = true) (hg : s.msg_grndDist = some gd) (hj : s.msg_jointState = some js)
    (hi : s.msg_imu = some q) : ∃ out : TickPub, (tick s d).2 = some out := by
  unfold tick
  rw [ha, hg, hj, hi]
  simp

theorem tick_fst_fields (s : NodeState) (d : ℤ) :
    (tick s d).1.msg_grndDist = s.msg_grndDist ∧
    (tick s d).1.msg_jointState = s.msg_jointState ∧
    (tick s d).1.msg_imu = s.msg_imu ∧
    (tick s d).1.ctrlType_curr = s.ctrlType_curr ∧
    (tick s d).1.active = s.active := by
  unfold tick
  rcases hg : s.msg_grndDist with _ | gd <;> rcases hj : s.msg_jointState with _ | js <;>
    rcases hi : s.msg_imu with _ | q <;> rcases ha : s.active <;> simp [ha, hg, hj, hi]

theorem step_preserves_sensorsSet (s : NodeState) (e : Event) (h : sensorsSet s) :
    sensorsSet (step s e).1 := by
  obtain ⟨h1, h2, h3⟩ := h
  cases e <;>
    simp_all [step, sensorsSet, srvcllbck_setPoseSetPoint, srvcllbck_setPoseCtrlGain,
      srvcllbck_setCtrlType]
  case setCtrlType v =>
    split <;> simp_all
  case tick d =>
    obtain ⟨e1, e2, e3, _, _⟩ := tick_fst_fields s d
    rw [e1, e2, e3]
    exact ⟨h1, h2, h3⟩

theorem step_preserves_ctrl_valid (s : NodeState) (e : Event)
    (h : s.ctrlType_curr = 1 ∨ s.ctrlType_curr = 2 ∨ s.ctrlType_curr = 3) :
    (step s e).1.ctrlType_curr = 1 ∨ (step s e).1.ctrlType_curr = 2 ∨
      (step s e).1.ctrlType_curr = 3 := by
  cases e with
  | imu q => exact h
  | grndDist v => exact h
  | jointState l => exact h
  | setActive b => exact h
  | setPose tr rpy => exact h
  | setGain a b => exact h
  | setCtrlType v =>
      show (srvcllbck_setCtrlType s v).1.ctrlType_curr = 1 ∨
        (srvcllbck_setCtrlType s v).1.ctrlType_curr = 2 ∨
        (srvcllbck_setCtrlType s v).1.ctrlType_curr = 3
      unfold srvcllbck_setCtrlType
      split
      · next hv =>
          show v = 1 ∨ v = 2 ∨ v = 3
          omega
      · exact h
  | tick d =>
      show (tick s d).1.ctrlType_curr = 1 ∨ (tick s d).1.ctrlType_curr = 2 ∨
        (tick s d).1.ctrlType_curr = 3
      rw [(tick_fst_fields s d).2.2.2.1]
      exact h

/-! ## Claim C3: readiness gating of the loop -/

/-- C3: a loop tick publishes no command batch while any of the three sensor
snapshots has never been populated; no event ever unsets a populated
snapshot (callbacks overwrite them with fresh values, so stale values are
reused); and every tick taken in an active state with all three snapshots
populated publishes exactly one command batch.  The (model-theoretically
unused) length premise on the joint-state snapshot records that the robot's
joint-state message carries 8 joint positions, of which the last 4 are the
flipper angles consumed by the null-space mode. -/
theorem loop_gating_and_latching :
    (∀ (s : NodeState) (d : ℤ),
        s.msg_grndDist = none ∨ s.msg_jointState = none ∨ s.msg_imu = none →
        (tick s d).2 = none) ∧
    (∀ (s : NodeState) (e : Event), sensorsSet s → sensorsSet (step s e).1) ∧
    (∀ (s : NodeState) (d : ℤ),
        (∀ l : List ℝ, s.msg_jointState = some l → 8 ≤ l.length) →
        sensorsSet s → s.active = true →
        ∃ out : TickPub, (tick s d).2 = some out) := by
  refine ⟨tick_not_ready, step_preserves_sensorsSet, ?_⟩
  intro s d _ hset ha
  obtain ⟨h1, h2, h3⟩ := hset
  rcases hg : s.msg_grndDist with _ | gd
  · rw [hg] at h1; simp at h1
  rcases hj : s.msg_jointState with _ | js
  · rw [hj] at h2; simp at h2
  rcases hi : s.msg_imu with _ | q
  · rw [hi] at h3; simp at h3
  exact tick_ready_pub s d gd js q ha hg hj hi

/-- Witness for C3: at the initial state (whose ground-distance snapshot is
unset) a tick publishes nothing; populating all three snapshots yields a
state from which an IMU event preserves populatedness and an active tick
publishes exactly one batch. -/
theorem loop_gating_and_latching_witness :
    (tick initState 0).2 = none ∧
    sensorsSet (step (withSensors initState ⟨0, 0, 0⟩ (List.replicate 8 0) ⟨1, 0, 0, 0⟩)
        (Event.imu ⟨1, 0, 0, 0⟩)).1 ∧
    ∃ out : TickPub,
      (tick (withSensors initState ⟨0, 0, 0⟩ (List.replicate 8 0) ⟨1, 0, 0, 0⟩) 0).2 =
        some out :=
  ⟨loop_gating_and_latching.1 initState 0 (Or.inl rfl),
   loop_gating_and_latching.2.1 _ _ ⟨rfl, rfl, rfl⟩,
   loop_gating_and_latching.2.2 _ 0
     (by intro l hl; cases hl; simp)
     ⟨rfl, rfl, rfl⟩ rfl⟩

/-! ## Claim C9: invalid-mode fail-safe and its unreachability -/

/-- C9 counterexample: at a ready, active state whose mode field is `0` and
in which no earlier iteration computed a pose error, the tick publishes the
zero command (fail-safe), but the pose-error publication of line 250 reads
the loop-local `e_a_R_dq`, which no branch of this iteration assigned —
`errPub = none` models the `UnboundLocalError` that aborts the iteration
before the error and gain publications, so the tick does not complete.
This refutes the original claim's conjunct that such a tick completes. -/
theorem invalidMode_counterexample :
    (tick { withSensors initState ⟨0, 0, 0⟩ (List.replicate 8 0) ⟨1, 0, 0, 0⟩ with
          ctrlType_curr := 0 } 0).2.map TickPub.cmd = some 0 ∧
    (tick { withSensors initState ⟨0, 0, 0⟩ (List.replicate 8 0) ⟨1, 0, 0, 0⟩ with
          ctrlType_curr := 0 } 0).2.map TickPub.errPub = some none := by
  constructor <;> simp [tick, withSensors, initState]

/-- C9 (amended): a ready, active tick whose mode value is outside `{1,2,3}`
publishes the zero 4-vector command as a fail-safe, republishing the
previously computed pose error (the iteration completes only if an earlier
iteration assigned one); moreover the branch is unreachable: starting from
the default mode `1` (Orientation), any sequence of events — in particular
any sequence of set-control-type requests — leaves the active mode in
`{1,2,3}`. -/
theorem invalidMode_failsafe :
    (∀ (s : NodeState) (d m : ℤ) (gd : Vec3) (js : List ℝ) (q : Quat),
        ¬(m = 1 ∨ m = 2 ∨ m = 3) →
        (tick { withSensors s gd js q with ctrlType_curr := m, active := true } d).2 =
          some { cmd := 0
                 poseCurr := trAndOri2dq ⟨0, 0, gd.z⟩ (deYaw q)
                 poseSp := s.x_sp_dq
                 errPub := s.e_dq_last
                 gainPub := s.kp_a_dq }) ∧
    (∀ evs : List Event,
        (runState initState evs).ctrlType_curr = 1 ∨
        (runState initState evs).ctrlType_curr = 2 ∨
        (runState initState evs).ctrlType_curr = 3) := by
  constructor
  · intro s d m gd js q hm
    push_neg at hm
    obtain ⟨hm1, hm2, hm3⟩ := hm
    unfold tick
    simp [withSensors, hm1, hm2, hm3]
  · have key : ∀ (evs : List Event) (s : NodeState),
        s.ctrlType_curr = 1 ∨ s.ctrlType_curr = 2 ∨ s.ctrlType_curr = 3 →
        (runState s evs).ctrlType_curr = 1 ∨ (runState s evs).ctrlType_curr = 2 ∨
          (runState s evs).ctrlType_curr = 3 := by
      intro evs
      induction evs with
      | nil => intro s h; exact h
      | cons e es ih => intro s h; exact ih _ (step_preserves_ctrl_valid s e h)
    intro evs
    exact key evs initState (Or.inl rfl)

/-- Witness for C9 (amended): a concrete ready tick with mode forced to `4`
publishes the zero command and republishes the (unset) previous error, and
a concrete request sequence containing an out-of-range request keeps the
mode in `{1,2,3}`. -/
theorem invalidMode_failsafe_witness :
    (tick { withSensors initState ⟨0, 0, 0⟩ (List.replicate 8 0) ⟨1, 0, 0, 0⟩ with
          ctrlType_curr := 4, active := true } 5).2 =
      some { cmd := 0
             poseCurr := trAndOri2dq ⟨0, 0, 0⟩ (deYaw ⟨1, 0, 0, 0⟩)
             poseSp := initState.x_sp_dq
             errPub := initState.e_dq_last
             gainPub := initState.kp_a_dq } ∧
    ((runState initState [Event.setCtrlType 2, Event.setCtrlType 7]).ctrlType_curr = 1 ∨
     (runState initState [Event.setCtrlType 2, Event.setCtrlType 7]).ctrlType_curr = 2 ∨
     (runState initState [Event.setCtrlType 2, Event.setCtrlType 7]).ctrlType_curr = 3) :=
  ⟨invalidMode_failsafe.1 initState 5 4 ⟨0, 0, 0⟩ (List.replicate 8 0) ⟨1, 0, 0, 0⟩
      (by norm_num),
   invalidMode_failsafe.2 [Event.setCtrlType 2, Event.setCtrlType 7]⟩

/-! ## Claim C6: the null-space projector -/

/-- The four Penrose equations hold of `J_ori_dagger` and the matrix `J_ori`
modelling `np.linalg.pinv(J_ori_dagger)`; they characterise the
Moore-Penrose pseudo-inverse uniquely, so `J_ori` is that pseudo-inverse. -/
theorem J_ori_penrose :
    J_ori_dagger * J_ori * J_ori_dagger = J_ori_dagger ∧
    J_ori * J_ori_dagger * J_ori = J_ori ∧
    (J_ori_dagger * J_ori)ᵀ = J_ori_dagger * J_ori ∧
    (J_ori * J_ori_dagger)ᵀ = J_ori * J_ori_dagger := by
  have hBA : J_ori * J_ori_dagger = 1 := by
    ext i j
    fin_cases i <;> fin_cases j <;>
      norm_num [Matrix.mul_apply, Fin.sum_univ_succ, J_ori, J_ori_dagger,
        compute_J_ori_dagger, tr_base_piFlp, Matrix.one_apply]
  refine ⟨?_, ?_, ?_, ?_⟩
  · rw [Matrix.mul_assoc, hBA, Matrix.mul_one]
  · rw [hBA, Matrix.one_mul]
  · ext i j
    fin_cases i <;> fin_cases j <;>
      norm_num [Matrix.mul_apply, Matrix.transpose_apply, Fin.sum_univ_succ, J_ori,
        J_ori_dagger, compute_J_ori_dagger, tr_base_piFlp]
  · rw [hBA, Matrix.transpose_one]

/-- C6: for any mounting geometry, if `B` is the Moore-Penrose
pseudo-inverse of the orientation Jacobian `A = compute_J_ori_dagger pts`
(stated through the four Penrose equations, which hold of `np.linalg.pinv`),
then the null-space projector `P = I − A·B` built at line 103 of the source
satisfies `P·P = P` and `A·B·P = 0`.  The equalities are exact, hence hold
a fortiori to floating tolerance. -/
theorem nsproj_idempotent_orthogonal (pts : Fin 4 → Vec3)
    (B : Matrix (Fin 2) (Fin 4) ℝ)
    (h1 : compute_J_ori_dagger pts * B * compute_J_ori_dagger pts = compute_J_ori_dagger pts)
    (h2 : B * compute_J_ori_dagger pts * B = B)
    (h3 : (compute_J_ori_dagger pts * B)ᵀ = compute_J_ori_dagger pts * B)
    (h4 : (B * compute_J_ori_dagger pts)ᵀ = B * compute_J_ori_dagger pts) :
    (1 - compute_J_ori_dagger pts * B) * (1 - compute_J_ori_dagger pts * B) =
      1 - compute_J_ori_dagger pts * B ∧
    compute_J_ori_dagger pts * B * (1 - compute_J_ori_dagger pts * B) = 0 := by
  set A := compute_J_ori_dagger pts with hA
  have hMM : (A * B) * (A * B) = A * B := by
    rw [← Matrix.mul_assoc, h1]
  constructor
  · rw [Matrix.sub_mul, Matrix.one_mul, Matrix.mul_sub, Matrix.mul_one, hMM, sub_self, sub_zero]
  · rw [Matrix.mul_sub, Matrix.mul_one, hMM, sub_self]

/-- Witness for C6: at the modelled mounting geometry and the concrete
pseudo-inverse of the node, the projector `J_ori_nsproj = I − J_ori_dagger·J_ori`
is idempotent and annihilated by `J_ori_dagger · J_ori` on the left. -/
theorem nsproj_idempotent_orthogonal_witness :
    ((1 - compute_J_ori_dagger tr_base_piFlp * J_ori) *
        (1 - compute_J_ori_dagger tr_base_piFlp * J_ori) =
      1 - compute_J_ori_dagger tr_base_piFlp * J_ori) ∧
    compute_J_ori_dagger tr_base_piFlp * J_ori *
        (1 - compute_J_ori_dagger tr_base_piFlp * J_ori) = 0 :=
  nsproj_idempotent_orthogonal tr_base_piFlp J_ori
    J_ori_penrose.1 J_ori_penrose.2.1 J_ori_penrose.2.2.1 J_ori_penrose.2.2.2

/-! ## Claim C4: the Orientation control law -/

/-- C4: on any ready, active tick in Orientation mode, the published batch
is exactly: the command `J_ori_dagger` applied to the control signal, where
the control signal is the elementwise product of the conjugated gain
quaternion's components with the error quaternion's components restricted
to the roll and pitch (`x`, `y`) vector components, and the error
quaternion is `conj(setpoint orientation) * (de-yawed current orientation)`
— together with the pose, set-point, zero-padded error and gain
diagnostics. -/
theorem orientation_mode_formula (s : NodeState) (d : ℤ) (gd : Vec3) (js : List ℝ) (q : Quat) :
    (tick { withSensors s gd js q with ctrlType_curr := 1, active := true } d).2 =
      some { cmd := J_ori_dagger.mulVec
                 (specOriCtrl s.kp_o_q (specOriError s.x_sp_ori_q (deYaw q)))
             poseCurr := trAndOri2dq ⟨0, 0, gd.z⟩ (deYaw q)
             poseSp := s.x_sp_dq
             errPub := some ⟨specOriError s.x_sp_ori_q (deYaw q), ⟨0, 0, 0, 0⟩⟩
             gainPub := s.kp_a_dq } := by
  unfold tick
  simp only [withSensors]
  norm_num [specOriError, specOriCtrl]
  refine ⟨?_, rfl⟩
  have hv : (![s.kp_o_q.conj.components 1 * (s.x_sp_ori_q.conj * deYaw q).components 1,
      s.kp_o_q.conj.components 2 * (s.x_sp_ori_q.conj * deYaw q).components 2] : Fin 2 → ℝ) =
      ![s.kp_o_q.conj.x * (s.x_sp_ori_q.conj * deYaw q).x,
        s.kp_o_q.conj.y * (s.x_sp_ori_q.conj * deYaw q).y] := by
    funext i
    fin_cases i <;> simp [Quat.components]
  rw [hv]

/-! ## Claim C5: the null-space bias vanishes at the joint target -/

/-- C5: on any ready, active tick, if the sign-corrected flipper joint
angles are exactly the per-unit null-space target angles, then the
OrientationNullSpace command coincides with the Orientation command from
the same state: the null-space bias contributes exactly zero. -/
theorem nullspace_bias_vanishes_at_target (s : NodeState) (d : ℤ) (gd : Vec3) (js : List ℝ)
    (q : Quat) (h : correctFlippersJointSignal (js.drop 4) = flpJointPosSp_l) :
    (tick { withSensors s gd js q with ctrlType_curr := 2, active := true } d).2.map
        TickPub.cmd =
      (tick { withSensors s gd js q with ctrlType_curr := 1, active := true } d).2.map
        TickPub.cmd := by
  unfold tick
  simp only [withSensors]
  norm_num [h]
  have hmu : (fun _ : Fin 4 => (0 : ℝ)) = (0 : Fin 4 → ℝ) := rfl
  rw [hmu, Matrix.mulVec_zero]

/-- Witness for C5: a concrete joint-state message whose last four entries,
after sign correction, are exactly the `deg2rad 110` targets makes the
OrientationNullSpace tick command agree with the Orientation tick command. -/
theorem nullspace_bias_vanishes_at_target_witness :
    (tick { withSensors initState ⟨0, 0, 0⟩
          [0, 0, 0, 0, deg2rad 110, -(deg2rad 110), -(deg2rad 110), deg2rad 110]
          ⟨1, 0, 0, 0⟩ with ctrlType_curr := 2, active := true } 0).2.map TickPub.cmd =
    (tick { withSensors initState ⟨0, 0, 0⟩
          [0, 0, 0, 0, deg2rad 110, -(deg2rad 110), -(deg2rad 110), deg2rad 110]
          ⟨1, 0, 0, 0⟩ with ctrlType_curr := 1, active := true } 0).2.map TickPub.cmd :=
  nullspace_bias_vanishes_at_target initState 0 ⟨0, 0, 0⟩
    [0, 0, 0, 0, deg2rad 110, -(deg2rad 110), -(deg2rad 110), deg2rad 110] ⟨1, 0, 0, 0⟩
    (by
      simp [correctFlippersJointSignal, flipperJointSigns, flpJointPosSp_l,
        List.replicate])

/-! ## Helper evaluations at the identity orientation -/

theorem rpy2quat_zero : rpy2quat (0, 0, 0) = ⟨1, 0, 0, 0⟩ := by
  simp [rpy2quat]

theorem convertSetPoints_zero :
    (convertSetPoints2DqFormat ⟨0, 0, 0⟩ (0, 0, 0)).2 = ⟨⟨1, 0, 0, 0⟩, ⟨0, 0, 0, 0⟩⟩ := by
  simp only [convertSetPoints2DqFormat, rpy2quat, trAndOri2dq, Vec3.toPureQuat, Quat.smul,
    quat_mul_def, Quat.mul]
  norm_num

theorem quat2rpy_id_yaw : (quat2rpy ⟨1, 0, 0, 0⟩).2.2 = 0 := by
  have h1 : ((⟨1, 0⟩ : ℂ)) = 1 := by
    apply Complex.ext <;> simp
  simp only [quat2rpy, atan2]
  norm_num
  rw [h1]
  exact Complex.arg_one

theorem deYaw_id : deYaw ⟨1, 0, 0, 0⟩ = ⟨1, 0, 0, 0⟩ := by
  unfold deYaw
  rw [quat2rpy_id_yaw, rpy2quat_zero]
  show Quat.mul _ _ = _
  simp [Quat.mul]

/-! ## Claim C7: Articulation mode at the identity set-point -/

/-- C7: on any ready, active tick in Articulation mode, if the stored pose
set-point is the one computed from translation `[0,0,0]` and identity (zero
RPY) orientation, and the current articulation pose dual quaternion equals
that set-point pose, then the published command is the zero 4-vector —
whatever the gain dual quaternion is. -/
theorem articulation_zero_command (s : NodeState) (d : ℤ) (gd : Vec3) (js : List ℝ) (q : Quat)
    (hsp : s.x_sp_dq = (convertSetPoints2DqFormat ⟨0, 0, 0⟩ (0, 0, 0)).2)
    (hcur : trAndOri2dq ⟨0, 0, gd.z⟩ (deYaw q) = s.x_sp_dq) :
    (tick { withSensors s gd js q with ctrlType_curr := 3, active := true } d).2.map
        TickPub.cmd = some 0 := by
  have hsp2 : s.x_sp_dq = ⟨⟨1, 0, 0, 0⟩, ⟨0, 0, 0, 0⟩⟩ := by rw [hsp, convertSetPoints_zero]
  have hcur2 : trAndOri2dq ⟨0, 0, gd.z⟩ (deYaw q) = (⟨⟨1, 0, 0, 0⟩, ⟨0, 0, 0, 0⟩⟩ : DQc) := by
    rw [hcur, hsp2]
  unfold tick
  simp only [withSensors]
  norm_num [hcur2, hsp2, DQc.conj, dq_mul_def, DQc.mul, Quat.conj, quat_mul_def, Quat.mul,
    quat_add_def, Quat.add, dqElementwiseMul, dq2trAndQuatArray, dqExtractTransV3, Quat.smul,
    Quat.vecPart]
  have hz : (![0, 0, 0] : Fin 3 → ℝ) = 0 := by
    funext i
    fin_cases i <;> simp
  rw [hz, Matrix.mulVec_zero]

/-- Witness for C7: with the set-point stored as the identity pose
(translation `[0,0,0]`, zero RPY), zero measured ground distance and the
identity IMU orientation, the Articulation-mode tick command is zero. -/
theorem articulation_zero_command_witness :
    (tick { withSensors { initState with
          x_sp_dq := (convertSetPoints2DqFormat ⟨0, 0, 0⟩ (0, 0, 0)).2 } ⟨0, 0, 0⟩
          (List.replicate 8 0) ⟨1, 0, 0, 0⟩ with
            ctrlType_curr := 3, active := true } 0).2.map TickPub.cmd = some 0 :=
  articulation_zero_command
    { initState with x_sp_dq := (convertSetPoints2DqFormat ⟨0, 0, 0⟩ (0, 0, 0)).2 }
    0 ⟨0, 0, 0⟩ (List.replicate 8 0) ⟨1, 0, 0, 0⟩ rfl
    (by
      rw [deYaw_id]
      show trAndOri2dq ⟨0, 0, (0 : ℝ)⟩ ⟨1, 0, 0, 0⟩ =
        (convertSetPoints2DqFormat ⟨0, 0, 0⟩ (0, 0, 0)).2
      rw [convertSetPoints_zero]
      simp only [trAndOri2dq, Vec3.toPureQuat, Quat.smul, quat_mul_def, Quat.mul]
      norm_num)

/-! ## Claim C10: the drive-side parameter does not influence outputs -/

theorem tick_drive_indep (v1 : Quat) (v2 : DQc) (v3 : Quat) (v4 : DQc) (v5 : ℤ)
    (v6 : Option Vec3) (v7 : Option (List ℝ)) (v8 : Option Quat) (v9 : Bool)
    (dA dB d₁ d₂ : ℤ) (vE : Option DQc) :
    (tick ⟨v1, v2, v3, v4, v5, v6, v7, v8, v9, dA, vE⟩ d₁).2 =
      (tick ⟨v1, v2, v3, v4, v5, v6, v7, v8, v9, dB, vE⟩ d₂).2 ∧
    eraseDrive (tick ⟨v1, v2, v3, v4, v5, v6, v7, v8, v9, dA, vE⟩ d₁).1 =
      eraseDrive (tick ⟨v1, v2, v3, v4, v5, v6, v7, v8, v9, dB, vE⟩ d₂).1 := by
  unfold tick
  rcases v9 <;> rcases v6 with _ | gd <;> rcases v7 with _ | js <;> rcases v8 with _ | q <;>
    simp [eraseDrive]

theorem setCtrl_drive_indep (v1 : Quat) (v2 : DQc) (v3 : Quat) (v4 : DQc) (v5 : ℤ)
    (v6 : Option Vec3) (v7 : Option (List ℝ)) (v8 : Option Quat) (v9 : Bool)
    (dA dB : ℤ) (vE : Option DQc) (v : ℤ) :
    eraseDrive (srvcllbck_setCtrlType ⟨v1, v2, v3, v4, v5, v6, v7, v8, v9, dA, vE⟩ v).1 =
      eraseDrive (srvcllbck_setCtrlType ⟨v1, v2, v3, v4, v5, v6, v7, v8, v9, dB, vE⟩ v).1 := by
  by_cases hv : 1 ≤ v ∧ v ≤ 3 <;> simp [srvcllbck_setCtrlType, hv, eraseDrive]

theorem step_drive_indep (s₁ s₂ : NodeState) (e₁ e₂ : Event)
    (hs : eraseDrive s₁ = eraseDrive s₂) (he : normEv e₁ = normEv e₂) :
    (step s₁ e₁).2 = (step s₂ e₂).2 ∧
      eraseDrive (step s₁ e₁).1 = eraseDrive (step s₂ e₂).1 := by
  obtain ⟨v1, v2, v3, v4, v5, v6, v7, v8, v9, dA, vE⟩ := s₁
  obtain ⟨w1, w2, w3, w4, w5, w6, w7, w8, w9, dB, wE⟩ := s₂
  simp only [eraseDrive, NodeState.mk.injEq] at hs
  obtain ⟨rfl, rfl, rfl, rfl, rfl, rfl, rfl, rfl, rfl, -, rfl⟩ := hs
  cases e₁ <;> cases e₂ <;> simp_all [normEv] <;>
    first
      | rfl
      | exact ⟨rfl, rfl⟩
      | exact tick_drive_indep v1 v2 v3 v4 v5 v6 v7 v8 v9 dA dB _ _ vE
      | exact ⟨rfl, setCtrl_drive_indep v1 v2 v3 v4 v5 v6 v7 v8 v9 dA dB vE _⟩

/-- C10: two runs of the node from states that agree on everything except
the heading-polarity (`drive_side`) field, fed event sequences that agree
on everything except the drive-side parameter value each tick reads,
produce identical output traces: identical command arrays and identical
pose / set-point / error / gain diagnostics on every tick. -/
theorem drive_side_noninterference (s₁ s₂ : NodeState) (evs₁ evs₂ : List Event)
    (hs : eraseDrive s₁ = eraseDrive s₂) (he : evs₁.map normEv = evs₂.map normEv) :
    run s₁ evs₁ = run s₂ evs₂ := by
  induction evs₁ generalizing s₁ s₂ evs₂ with
  | nil =>
      have h2 : evs₂ = [] := by
        have := he.symm
        simpa using this
      subst h2
      rfl
  | cons e es ih =>
      rcases evs₂ with _ | ⟨e₂, es₂⟩
      · simp at he
      · simp only [List.map_cons, List.cons.injEq] at he
        obtain ⟨he1, he2⟩ := he
        have hstep := step_drive_indep s₁ s₂ e e₂ hs he1
        show (step s₁ e).2 :: run (step s₁ e).1 es = (step s₂ e₂).2 :: run (step s₂ e₂).1 es₂
        rw [hstep.1, ih (step s₁ e).1 (step s₂ e₂).1 es₂ hstep.2 he2]

/-- Witness for C10: a pair of concrete runs differing only in the initial
drive-side value and in the parameter value read by the tick produce the
same output trace. -/
theorem drive_side_noninterference_witness :
    run initState [Event.imu ⟨1, 0, 0, 0⟩, Event.tick 3] =
      run { initState with drive_side := 7 } [Event.imu ⟨1, 0, 0, 0⟩, Event.tick 9] :=
  drive_side_noninterference initState { initState with drive_side := 7 }
    [Event.imu ⟨1, 0, 0, 0⟩, Event.tick 3] [Event.imu ⟨1, 0, 0, 0⟩, Event.tick 9]
    rfl rfl

/-! ## Claim C1: the de-yaw composition does not cancel the heading -/

/-- C1: evaluation of the de-yaw computation of lines 160-163 at the
failing input — a raw IMU orientation that is a pure `+90°` yaw rotation,
`q = (cos(π/4), 0, 0, sin(π/4))`.  The composition `q * q_yawcorr`
right-multiplies by the yaw-only quaternion rebuilt from the extracted yaw
(not by its inverse), so the heading is doubled instead of canceled: the
yaw extracted from the resulting orientation `x_o_R_q` is `π`, not `0`.
(Any mutually inverse `quat2rpy`/`rpy2quat` pair — which the get-after-set
round trip of C8 requires — yields this doubling on pure-yaw inputs.) -/
theorem deYaw_fails_to_cancel_yaw :
    (quat2rpy (deYaw ⟨cos (π / 4), 0, 0, sin (π / 4)⟩)).2.2 = π ∧ (π : ℝ) ≠ 0 := by
  have hc : cos (π / 4) = Real.sqrt 2 / 2 := Real.cos_pi_div_four
  have hs : sin (π / 4) = Real.sqrt 2 / 2 := Real.sin_pi_div_four
  have h2 : Real.sqrt 2 * Real.sqrt 2 = 2 := Real.mul_self_sqrt (by norm_num)
  have hyaw : (quat2rpy ⟨cos (π / 4), 0, 0, sin (π / 4)⟩).2.2 = π / 2 := by
    have hnum : 2 * (cos (π / 4) * sin (π / 4) + 0 * 0) = 1 := by
      rw [hc, hs]
      linear_combination (1 / 2) * h2
    have hden : 1 - 2 * ((0 : ℝ) ^ 2 + sin (π / 4) ^ 2) = 0 := by
      rw [hs]
      linear_combination (-(1 / 2)) * h2
    show atan2 (2 * (cos (π / 4) * sin (π / 4) + 0 * 0))
        (1 - 2 * ((0 : ℝ) ^ 2 + sin (π / 4) ^ 2)) = π / 2
    rw [hnum, hden]
    show Complex.arg ⟨0, 1⟩ = π / 2
    have hI : (⟨0, 1⟩ : ℂ) = Complex.I := rfl
    rw [hI]
    exact Complex.arg_I
  have hdy : deYaw ⟨cos (π / 4), 0, 0, sin (π / 4)⟩ = ⟨0, 0, 0, 1⟩ := by
    unfold deYaw
    rw [hyaw]
    have hq : rpy2quat (0, 0, π / 2) = ⟨cos (π / 4), 0, 0, sin (π / 4)⟩ := by
      have harg : (π / 2) / 2 = π / 4 := by ring
      simp only [rpy2quat, harg]
      norm_num
    rw [hq]
    show Quat.mul ⟨cos (π / 4), 0, 0, sin (π / 4)⟩ ⟨cos (π / 4), 0, 0, sin (π / 4)⟩ =
      ⟨0, 0, 0, 1⟩
    simp only [Quat.mul, Quat.mk.injEq]
    rw [hc, hs]
    refine ⟨by ring, by ring, by ring, ?_⟩
    linear_combination (1 / 2) * h2
  refine ⟨?_, Real.pi_ne_zero⟩
  rw [hdy]
  show atan2 (2 * ((0 : ℝ) * 1 + 0 * 0)) (1 - 2 * ((0 : ℝ) ^ 2 + 1 ^ 2)) = π
  norm_num
  show Complex.arg ⟨-1, 0⟩ = π
  have hneg : (⟨-1, 0⟩ : ℂ) = -1 := by
    apply Complex.ext <;> simp
  rw [hneg]
  exact Complex.arg_neg_one

/-! ## Claim C8: get-after-set round trip of the pose set-point -/

theorem atan2_sin_cos_mul {θ c : ℝ} (hθ : θ ∈ Set.Ioc (-π) π) (hc : 0 < c) :
    atan2 (sin θ * c) (cos θ * c) = θ := by
  show Complex.arg ⟨cos θ * c, sin θ * c⟩ = θ
  have h1 : (⟨cos θ * c, sin θ * c⟩ : ℂ) = (c : ℂ) * ⟨cos θ, sin θ⟩ := by
    apply Complex.ext <;> simp [Complex.ofReal_mul'] <;> ring
  rw [h1, Complex.arg_real_mul _ hc]
  have h2 : (⟨cos θ, sin θ⟩ : ℂ) = Complex.cos θ + Complex.sin θ * Complex.I := by
    rw [Complex.mk_eq_add_mul_I, Complex.ofReal_cos, Complex.ofReal_sin]
  rw [h2]
  exact Complex.arg_cos_add_sin_mul_I hθ

theorem sin_eq_half (x : ℝ) : sin x = 2 * sin (x / 2) * cos (x / 2) := by
  rw [← Real.sin_two_mul]
  congr 1
  ring

theorem cos_eq_half (x : ℝ) : cos x = cos (x / 2) ^ 2 - sin (x / 2) ^ 2 := by
  rw [← Real.cos_two_mul']
  congr 1
  ring

theorem rpy2quat_roll_num (r p y : ℝ) :
    2 * ((rpy2quat (r, p, y)).w * (rpy2quat (r, p, y)).x +
      (rpy2quat (r, p, y)).y * (rpy2quat (r, p, y)).z) = sin r * cos p := by
  have hy := Real.sin_sq_add_cos_sq (y / 2)
  simp only [rpy2quat]
  rw [sin_eq_half r, cos_eq_half p]
  linear_combination
    (2 * sin (r / 2) * cos (r / 2) * (cos (p / 2) ^ 2 - sin (p / 2) ^ 2)) * hy

theorem rpy2quat_roll_den (r p y : ℝ) :
    1 - 2 * ((rpy2quat (r, p, y)).x ^ 2 + (rpy2quat (r, p, y)).y ^ 2) = cos r * cos p := by
  have ha := Real.sin_sq_add_cos_sq (r / 2)
  have hb := Real.sin_sq_add_cos_sq (p / 2)
  have hy := Real.sin_sq_add_cos_sq (y / 2)
  simp only [rpy2quat]
  rw [cos_eq_half r, cos_eq_half p]
  linear_combination (-(cos (p / 2) ^ 2 + sin (p / 2) ^ 2)) * ha + (-1 : ℝ) * hb +
    (-2 * (sin (r / 2) ^ 2 * cos (p / 2) ^ 2 + cos (r / 2) ^ 2 * sin (p / 2) ^ 2)) * hy

theorem rpy2quat_pitch_num (r p y : ℝ) :
    2 * ((rpy2quat (r, p, y)).w * (rpy2quat (r, p, y)).y -
      (rpy2quat (r, p, y)).z * (rpy2quat (r, p, y)).x) = sin p := by
  have ha := Real.sin_sq_add_cos_sq (r / 2)
  have hy := Real.sin_sq_add_cos_sq (y / 2)
  simp only [rpy2quat]
  rw [sin_eq_half p]
  linear_combination
    (2 * sin (p / 2) * cos (p / 2) * (cos (y / 2) ^ 2 + sin (y / 2) ^ 2)) * ha +
      (2 * sin (p / 2) * cos (p / 2)) * hy

theorem rpy2quat_yaw_num (r p y : ℝ) :
    2 * ((rpy2quat (r, p, y)).w * (rpy2quat (r, p, y)).z +
      (rpy2quat (r, p, y)).x * (rpy2quat (r, p, y)).y) = sin y * cos p := by
  have ha := Real.sin_sq_add_cos_sq (r / 2)
  simp only [rpy2quat]
  rw [sin_eq_half y, cos_eq_half p]
  linear_combination
    (2 * sin (y / 2) * cos (y / 2) * (cos (p / 2) ^ 2 - sin (p / 2) ^ 2)) * ha

theorem rpy2quat_yaw_den (r p y : ℝ) :
    1 - 2 * ((rpy2quat (r, p, y)).y ^ 2 + (rpy2quat (r, p, y)).z ^ 2) = cos y * cos p := by
  have ha := Real.sin_sq_add_cos_sq (r / 2)
  have hb := Real.sin_sq_add_cos_sq (p / 2)
  have hy := Real.sin_sq_add_cos_sq (y / 2)
  simp only [rpy2quat]
  rw [cos_eq_half y, cos_eq_half p]
  linear_combination (-(cos (p / 2) ^ 2 + sin (p / 2) ^ 2)) * hy + (-1 : ℝ) * hb +
    (-2 * (sin (p / 2) ^ 2 * cos (y / 2) ^ 2 + cos (p / 2) ^ 2 * sin (y / 2) ^ 2)) * ha

theorem rpy2quat_normSq (r p y : ℝ) :
    (rpy2quat (r, p, y)).w ^ 2 + (rpy2quat (r, p, y)).x ^ 2 +
      (rpy2quat (r, p, y)).y ^ 2 + (rpy2quat (r, p, y)).z ^ 2 = 1 := by
  have ha := Real.sin_sq_add_cos_sq (r / 2)
  have hb := Real.sin_sq_add_cos_sq (p / 2)
  have hy := Real.sin_sq_add_cos_sq (y / 2)
  simp only [rpy2quat]
  linear_combination
    ((sin (p / 2) ^ 2 + cos (p / 2) ^ 2) * (sin (y / 2) ^ 2 + cos (y / 2) ^ 2)) * ha +
      (sin (y / 2) ^ 2 + cos (y / 2) ^ 2) * hb + hy

theorem dqExtract_trAndOri (tr : Vec3) (q : Quat)
    (hq : q.w ^ 2 + q.x ^ 2 + q.y ^ 2 + q.z ^ 2 = 1) :
    dqExtractTransV3 (trAndOri2dq tr q) = tr := by
  simp only [dqExtractTransV3, trAndOri2dq, Vec3.toPureQuat, Quat.smul, Quat.vecPart,
    Quat.conj, quat_mul_def, Quat.mul]
  refine Vec3.ext ?_ ?_ ?_
  · show 2 * _ = tr.x
    linear_combination tr.x * hq
  · show 2 * _ = tr.y
    linear_combination tr.y * hq
  · show 2 * _ = tr.z
    linear_combination tr.z * hq

theorem quat2rpy_rpy2quat (r p y : ℝ) (hr : r ∈ Set.Ioc (-π) π)
    (hp : p ∈ Set.Ioo (-(π / 2)) (π / 2)) (hy : y ∈ Set.Ioc (-π) π) :
    quat2rpy (rpy2quat (r, p, y)) = (r, p, y) := by
  have hcp : 0 < cos p := Real.cos_pos_of_mem_Ioo hp
  have hstep : quat2rpy (rpy2quat (r, p, y)) =
      (atan2 (sin r * cos p) (cos r * cos p), arcsin (sin p),
        atan2 (sin y * cos p) (cos y * cos p)) := by
    simp only [quat2rpy]
    rw [rpy2quat_roll_num r p y, rpy2quat_roll_den r p y, rpy2quat_pitch_num r p y,
      rpy2quat_yaw_num r p y, rpy2quat_yaw_den r p y]
  rw [hstep]
  simp only [Prod.mk.injEq]
  refine ⟨?_, ?_, ?_⟩
  · exact atan2_sin_cos_mul hr hcp
  · exact Real.arcsin_sin hp.1.le hp.2.le
  · exact atan2_sin_cos_mul hy hcp

/-- C8: calling the set-pose-set-point service with any translation vector
and any RPY orientation away from gimbal lock (roll and yaw in the
principal range `(-π, π]`, pitch strictly inside `(-π/2, π/2)`), and then
calling the get-pose-set-point service, returns exactly the same
translation 3-vector and the same roll-pitch-yaw 3-vector.  The equalities
are exact, hence within any reconstruction tolerance. -/
theorem setget_roundtrip (s : NodeState) (tr : Vec3) (r p y : ℝ)
    (hr : r ∈ Set.Ioc (-π) π) (hp : p ∈ Set.Ioo (-(π / 2)) (π / 2))
    (hy : y ∈ Set.Ioc (-π) π) :
    srvcllbck_getPoseSetPoint ((srvcllbck_setPoseSetPoint s tr (r, p, y)).1) =
      (tr, (r, p, y)) := by
  show (dqExtractTransV3 (trAndOri2dq tr (rpy2quat (r, p, y))),
      dq2rpy (trAndOri2dq tr (rpy2quat (r, p, y)))) = (tr, (r, p, y))
  have hq : (rpy2quat (r, p, y)).w ^ 2 + (rpy2quat (r, p, y)).x ^ 2 +
      (rpy2quat (r, p, y)).y ^ 2 + (rpy2quat (r, p, y)).z ^ 2 = 1 := rpy2quat_normSq r p y
  simp only [Prod.mk.injEq]
  exact ⟨dqExtract_trAndOri tr _ hq, quat2rpy_rpy2quat r p y hr hp hy⟩

/-- Witness for C8: the concrete round trip of the spec —
`setPose([0.1, 0, 0.3], [0, 0.2, 0])` followed by `getPose()` — returns
exactly `([0.1, 0, 0.3], [0, 0.2, 0])`. -/
theorem setget_roundtrip_witness :
    srvcllbck_getPoseSetPoint
        ((srvcllbck_setPoseSetPoint initState ⟨1 / 10, 0, 3 / 10⟩ (0, 1 / 5, 0)).1) =
      (⟨1 / 10, 0, 3 / 10⟩, (0, 1 / 5, 0)) :=
  setget_roundtrip initState ⟨1 / 10, 0, 3 / 10⟩ 0 (1 / 5) 0
    (Set.mem_Ioc.mpr ⟨by linarith [Real.pi_gt_three], by linarith [Real.pi_gt_three]⟩)
    (Set.mem_Ioo.mpr ⟨by linarith [Real.pi_gt_three], by linarith [Real.pi_gt_three]⟩)
    (Set.mem_Ioc.mpr ⟨by linarith [Real.pi_gt_three], by linarith [Real.pi_gt_three]⟩)

end Rosi
